import Mathlib

/-!
Verification of the controller scaffold generator and the compile-time
type-projection helpers of the openapi-first template repository.

Embedded source units:
* the generator script (read YAML spec, group operations by the
  `x-eov-operation-handler` extension field, emit one controller stub file
  per handler group, skipping files that already exist);
* `src/types/api-helpers.ts` (the `PathParams`, `QueryParams`, `RequestBody`,
  `ResponseBody`, `ApiRequest`, `ApiResponse` conditional-type projections).

The filesystem is modelled as an association list of (path, content) pairs
plus a list of existing directories; the generator is a pure state
transformer over that model.  Parse failure of the YAML document is
modelled by the `none` case of the document argument: the script dies in
`yaml.load` before it touches the filesystem.
-/

/-- JavaScript truthiness of an optional string field: an absent key
(`undefined`) and the empty string are falsy, every other string is truthy.
This is the test `operation[...] && operation[...]` performs on the two
extension fields. -/
def truthyOpt : Option String → Bool
  | none => false
  | some s => s != ""

/-- JavaScript `String.prototype.toUpperCase` restricted to the ASCII method
names that appear as keys of an OpenAPI path item (`method.toUpperCase()`). -/
def toUpperCase (s : String) : String :=
  String.mk (s.data.map Char.toUpper)

/-- One OpenAPI operation object, restricted to the fields the generator
reads: the two `x-eov-*` extension keys, `summary` and `description`.
`none` models an absent key. -/
structure Operation where
  xEovOperationHandler : Option String
  xEovOperationId : Option String
  summary : Option String
  description : Option String
deriving DecidableEq, Repr

/-- The parsed OpenAPI document, reduced to what the generator consumes:
`paths` is a mapping URL → mapping HTTP method → operation object, in
object-key insertion order as `Object.entries` iterates it. -/
structure ApiSpec where
  paths : List (String × List (String × Operation))
deriving DecidableEq, Repr

/-- The operation descriptor the generator pushes onto a handler group:
`{operationId, method: method.toUpperCase(), path: pathUrl,
  summary: operation.summary || ..., description: operation.description || ...}`. -/
structure OpInfo where
  operationId : String
  method : String
  path : String
  summary : String
  description : String
deriving DecidableEq, Repr

/-- The gate of the scan: both extension fields must be truthy
(`operation[handler-key] && operation[id-key]`). -/
def qualifies (op : Operation) : Bool :=
  truthyOpt op.xEovOperationHandler && truthyOpt op.xEovOperationId

/-- Descriptor built from a qualifying operation. `op.summary || ""` on an
optional string is `Option.getD` with default `""`. -/
def opDescriptor (pathUrl method : String) (op : Operation) : OpInfo :=
  { operationId := op.xEovOperationId.getD ""
    method := toUpperCase method
    path := pathUrl
    summary := op.summary.getD ""
    description := op.description.getD "" }

/-- The `controllers` JavaScript `Map`: an insertion-ordered association
list from handler name to its list of descriptors.  `controllers.set` on
a fresh name appends a new key at the end; `controllers.get(h).push(info)`
appends to the existing entry. -/
def addToGroup (ctrls : List (String × List OpInfo)) (handlerName : String)
    (info : OpInfo) : List (String × List OpInfo) :=
  match ctrls with
  | [] => [(handlerName, [info])]
  | (k, ops) :: rest =>
    if k = handlerName then (k, ops ++ [info]) :: rest
    else (k, ops) :: addToGroup rest handlerName info

/-- Body of the inner `forEach` of the scan: a qualifying operation is
appended to its handler group, any other operation leaves the map (and the
console) untouched. -/
def processOperation (ctrls : List (String × List OpInfo)) (pathUrl method : String)
    (op : Operation) : List (String × List OpInfo) :=
  if qualifies op then
    addToGroup ctrls (op.xEovOperationHandler.getD "") (opDescriptor pathUrl method op)
  else ctrls

/-- The inner `Object.entries(methods).forEach` loop over one path item. -/
def processPathItem (ctrls : List (String × List OpInfo)) (pathUrl : String)
    (methods : List (String × Operation)) : List (String × List OpInfo) :=
  methods.foldl (fun c mo => processOperation c pathUrl mo.1 mo.2) ctrls

/-- The outer `Object.entries(apiSpec.paths).forEach` scan that builds the
handler-group catalog from an empty map. -/
def buildControllers (spec : ApiSpec) : List (String × List OpInfo) :=
  spec.paths.foldl (fun ctrls pm => processPathItem ctrls pm.1 pm.2) []

/-- The object returned by `generateTypeAnnotations(operationId)`; only the
`operation` member is interpolated into the emitted stub. -/
structure TypeAnnotations where
  operation : String
  pathParams : String
  queryParams : String
  requestBody : String
  responseBody : String
deriving DecidableEq, Repr

/-- `generateTypeAnnotations` of the script, verbatim template strings. -/
def generateTypeAnnotations (operationId : String) : TypeAnnotations :=
  { operation := "operations[\x27" ++ operationId ++ "\x27]"
    pathParams := "operations[\x27" ++ operationId ++ "\x27][\x27parameters\x27][\x27path\x27]"
    queryParams := "operations[\x27" ++ operationId ++ "\x27][\x27parameters\x27][\x27query\x27]"
    requestBody := "operations[\x27" ++ operationId
      ++ "\x27][\x27requestBody\x27][\x27content\x27][\x27application/json\x27]"
    responseBody := "operations[\x27" ++ operationId
      ++ "\x27][\x27responses\x27][200][\x27content\x27][\x27application/json\x27]" }

/-- One formal parameter of an emitted stub, as (name, TypeScript type). -/
structure StubParam where
  name : String
  tsType : String
deriving DecidableEq, Repr

/-- Structural view of one emitted stub: the exported name, the parameter
list, and the body text between the braces of the arrow function. -/
structure Stub where
  name : String
  params : List StubParam
  bodyText : String
deriving DecidableEq, Repr

/-- The `try/catch` body of the stub template, interpolating the operation
id, upper-cased method and path exactly as the template literal does. -/
def stubBody (op : OpInfo) : String :=
  "  try \x7b\n    // TODO: Implement business logic\n    // Access types via: "
    ++ (generateTypeAnnotations op.operationId).operation
    ++ "\n\n    res.status(200).json(\x7b\n      message: \x27" ++ op.operationId
    ++ " - Implementation pending\x27,\n      method: \x27" ++ op.method
    ++ "\x27,\n      path: \x27" ++ op.path
    ++ "\x27\n    \x7d);\n  \x7d catch (error) \x7b\n    next(error);\n  \x7d\n"

/-- The stub the template emits for one operation: exported under the
operation id, with the fixed parameter triple `req: Request`,
`res: Response`, `next: NextFunction` of the template literal. -/
def stubFor (op : OpInfo) : Stub :=
  { name := op.operationId
    params := [⟨"req", "Request"⟩, ⟨"res", "Response"⟩, ⟨"next", "NextFunction"⟩]
    bodyText := stubBody op }

/-- The block comment the template places above one stub. -/
def stubDocComment (op : OpInfo) : String :=
  "/**\n * " ++ op.summary ++ "\n * " ++ op.description ++ "\n * @route "
    ++ op.method ++ " " ++ op.path ++ "\n */\n"

/-- Renders a parameter list one parameter per line, comma separated, as in
the template literal. -/
def renderParams (ps : List StubParam) : String :=
  String.intercalate ",\n" (ps.map (fun p => "  " ++ p.name ++ ": " ++ p.tsType))

/-- Text appended to `content` for one operation: doc comment, `export
const <id> = async (...)` with the parameter triple, and the stub body. -/
def renderStub (op : OpInfo) : String :=
  stubDocComment op ++ "export const " ++ (stubFor op).name ++ " = async (\n"
    ++ renderParams (stubFor op).params
    ++ "\n): Promise<void> => \x7b\n" ++ (stubFor op).bodyText ++ "\x7d;\n\n"

/-- The fixed file header of a generated controller: name comment plus the
two imports (note: the generic express `Request`/`Response`/`NextFunction`
and the raw `operations`/`components` schema, not the api-helpers aliases). -/
def fileHeader (controllerName : String) : String :=
  "/**\n * " ++ controllerName
    ++ "\n * Auto-generated from OpenAPI specification\n */\n\nimport \x7b Request, Response, NextFunction \x7d from \x27express\x27;\nimport \x7b operations, components \x7d from \x27../types/schema\x27;\n\n"

/-- The whole content string of one generated controller file: the header
accumulator followed by `content += <stub template>` per operation. -/
def controllerContent (controllerName : String) (ops : List OpInfo) : String :=
  ops.foldl (fun content op => content ++ renderStub op) (fileHeader controllerName)

/-- The exported stubs of the file generated for a group, in group order —
the structural counterpart of the `operations.forEach` emission loop. -/
def fileExports (ops : List OpInfo) : List Stub :=
  ops.map stubFor

/-- Model of the on-disk state the generator touches: regular files as an
association list path → content (append order = creation order), the set of
existing directories, and the console log. -/
structure GenState where
  files : List (String × String)
  dirs : List String
  log : List String
deriving DecidableEq, Repr

/-- The fixed output directory `./src/controllers`. -/
def controllersDir : String := "./src/controllers"

/-- `path.join(controllersDir, controllerName + ".ts")` (join normalizes
the leading `./` away). -/
def filePathFor (controllerName : String) : String :=
  "src/controllers/" ++ controllerName ++ ".ts"

/-- `fs.existsSync(filePath)` over the file model. -/
def hasFile (st : GenState) (p : String) : Bool :=
  st.files.any (fun f => f.1 == p)

/-- Body of the `controllers.forEach` generation loop for one handler
group: skip (with a console message) when the target file exists, else
synthesize the content and `fs.writeFileSync` it, logging success. -/
def writeGroup (st : GenState) (group : String × List OpInfo) : GenState :=
  if hasFile st (filePathFor group.1) then
    { st with log := st.log ++ ["⚠️  " ++ group.1 ++ ".ts already exists, skipping..."] }
  else
    { st with
      files := st.files ++ [(filePathFor group.1, controllerContent group.1 group.2)]
      log := st.log ++ ["✅ Generated: " ++ group.1 ++ ".ts",
        "   Operations: " ++ String.intercalate ", " (group.2.map OpInfo.operationId)] }

/-- The `if (!fs.existsSync(controllersDir)) fs.mkdirSync(..., recursive)`
step run before any group is processed. -/
def ensureDir (st : GenState) : GenState :=
  if controllersDir ∈ st.dirs then st
  else { st with dirs := st.dirs ++ [controllersDir] }

/-- One full run of the generator script.  `none` is a YAML parse failure:
`yaml.load` throws at the top of the script, before the directory check and
before any write, so the state is returned untouched.  On a parsed document
the script ensures the output directory, folds the generation loop over the
handler groups, and prints the completion banner. -/
def generate (st : GenState) (doc : Option ApiSpec) : GenState :=
  match doc with
  | none => st
  | some spec =>
    let st2 := (buildControllers spec).foldl writeGroup (ensureDir st)
    { st2 with log := st2.log ++ ["🎉 Generation completed!"] }

/-- A TypeScript type as the projection layer distinguishes them: a named
concrete schema shape, the `Record<string, never>` empty-object fallback,
`undefined`, or `void`. -/
inductive TsType where
  | named (s : String)
  | recordStringNever
  | undef
  | voidT
deriving DecidableEq, Repr

/-- One entry of the generated `operations` catalog, restricted to the
structure the conditional types of api-helpers.ts match on: the optional
`parameters.path` and `parameters.query` shapes, the optional
`requestBody.content` media-type map, and the per-status response `content`
media-type maps (`none` content models a response with no `content` key,
e.g. 204 No Content). -/
structure OperationSchema where
  pathParams : Option TsType
  queryParams : Option TsType
  requestBodyContent : Option (List (String × TsType))
  responses : List (Nat × Option (List (String × TsType)))
deriving DecidableEq, Repr

/-- Lookup of a media-type key inside a `content` object. -/
def lookupMedia (content : List (String × TsType)) (mediaType : String) : Option TsType :=
  (content.find? (fun e => e.1 == mediaType)).map (fun e => e.2)

/-- `PathParams<T> = operations[T] extends \x7b parameters: \x7b path: infer P \x7d \x7d
? P : Record<string, never>`. -/
def PathParams (op : OperationSchema) : TsType :=
  match op.pathParams with
  | some p => p
  | none => TsType.recordStringNever

/-- `QueryParams<T>`: the same conditional applied to `parameters.query`. -/
def QueryParams (op : OperationSchema) : TsType :=
  match op.queryParams with
  | some q => q
  | none => TsType.recordStringNever

/-- `RequestBody<T> = operations[T] extends
\x7b requestBody: \x7b content: \x7b application/json: infer B \x7d \x7d \x7d ? B : undefined`:
the conditional only matches when the exact json media-type key is present. -/
def RequestBody (op : OperationSchema) : TsType :=
  match op.requestBodyContent with
  | some content =>
    match lookupMedia content "application/json" with
    | some b => b
    | none => TsType.undef
  | none => TsType.undef

/-- The `content` object declared at one status code of an operation, if
any: `none` when the status is not declared or carries no `content`. -/
def responseContent (op : OperationSchema) (status : Nat) :
    Option (List (String × TsType)) :=
  match op.responses.find? (fun e => e.1 == status) with
  | some e => e.2
  | none => none

/-- `ResponseBody<T, Status> = operations[T] extends \x7b responses:
\x7b [K in Status]: \x7b content: \x7b application/json: infer R \x7d \x7d \x7d \x7d ? R : void`. -/
def ResponseBody (op : OperationSchema) (status : Nat) : TsType :=
  match responseContent op status with
  | some content =>
    match lookupMedia content "application/json" with
    | some r => r
    | none => TsType.voidT
  | none => TsType.voidT

/-- The three type arguments `ApiRequest<T>` passes to the express
`Request` generic: `Request<PathParams<T>, any, RequestBody<T>, QueryParams<T>>`. -/
structure ApiRequestShape where
  reqPathParams : TsType
  reqBody : TsType
  reqQuery : TsType
deriving DecidableEq, Repr

/-- `ApiRequest<T>` assembled from the three projections. -/
def ApiRequest (op : OperationSchema) : ApiRequestShape :=
  ⟨PathParams op, RequestBody op, QueryParams op⟩

/-- `ApiResponse<T, Status> = Response<ResponseBody<T, Status>>`. -/
def ApiResponse (op : OperationSchema) (status : Nat) : TsType :=
  ResponseBody op status

/-- The per-path filter that keeps exactly the operations passing the
extension-field gate; used to state that non-qualifying operations
contribute nothing to a run. -/
def filterQualifying (spec : ApiSpec) : ApiSpec :=
  ⟨spec.paths.map (fun pm => (pm.1, pm.2.filter (fun mo => qualifies mo.2)))⟩

/-- The parameter types the specification text prescribes for a stub: the
request and response parameters typed against the operation-specific
`ApiRequest`/`ApiResponse` aliases derived from the operation id.  Stated
from the spec wording, for comparison with `stubFor`. -/
def specAliasParamTypes (op : OpInfo) : List String :=
  ["ApiRequest<\x27" ++ op.operationId ++ "\x27>",
   "ApiResponse<\x27" ++ op.operationId ++ "\x27>",
   "NextFunction"]

/-- Two states with the same files agree on every existence check. -/
theorem hasFile_congr (st st' : GenState) (p : String) (h : st.files = st'.files) :
    hasFile st p = hasFile st' p := by
  unfold hasFile
  rw [h]

/-- One generation step never touches the directory set. -/
theorem writeGroup_dirs (st : GenState) (g : String × List OpInfo) :
    (writeGroup st g).dirs = st.dirs := by
  unfold writeGroup
  split <;> rfl

/-- The whole generation loop never touches the directory set. -/
theorem foldl_writeGroup_dirs : ∀ (ctrls : List (String × List OpInfo)) (st : GenState),
    (ctrls.foldl writeGroup st).dirs = st.dirs
  | [], _ => rfl
  | g :: rest, st => by
    rw [List.foldl_cons, foldl_writeGroup_dirs rest _, writeGroup_dirs]

/-- A file present before a generation step is present after it. -/
theorem hasFile_writeGroup_mono (st : GenState) (g : String × List OpInfo) (p : String)
    (h : hasFile st p = true) : hasFile (writeGroup st g) p = true := by
  unfold writeGroup
  split
  · exact h
  · unfold hasFile at h ⊢
    simp only [List.any_append]
    simp [h]

/-- A file present before the generation loop is present after it. -/
theorem hasFile_foldl_mono : ∀ (ctrls : List (String × List OpInfo)) (st : GenState)
    (p : String), hasFile st p = true → hasFile (ctrls.foldl writeGroup st) p = true
  | [], _, _, h => h
  | g :: rest, st, p, h =>
    hasFile_foldl_mono rest (writeGroup st g) p (hasFile_writeGroup_mono st g p h)

/-- After its own generation step a group's target file exists. -/
theorem hasFile_writeGroup_self (st : GenState) (g : String × List OpInfo) :
    hasFile (writeGroup st g) (filePathFor g.1) = true := by
  unfold writeGroup
  split
  · next h => exact h
  · unfold hasFile
    simp

/-- After the generation loop, every processed group's target file exists. -/
theorem hasFile_foldl_self : ∀ (ctrls : List (String × List OpInfo)) (st : GenState)
    (g : String × List OpInfo), g ∈ ctrls →
    hasFile (ctrls.foldl writeGroup st) (filePathFor g.1) = true
  | [], _, _, hg => absurd hg (List.not_mem_nil _)
  | g0 :: rest, st, g, hg => by
    rcases List.mem_cons.mp hg with heq | h
    · subst heq
      exact hasFile_foldl_mono rest _ _ (hasFile_writeGroup_self st g)
    · exact hasFile_foldl_self rest (writeGroup st g0) g h

/-- A generation step on an already-existing target writes nothing. -/
theorem writeGroup_files_of_hasFile (st : GenState) (g : String × List OpInfo)
    (h : hasFile st (filePathFor g.1) = true) : (writeGroup st g).files = st.files := by
  unfold writeGroup
  simp [h]

/-- A generation loop all of whose targets already exist writes nothing. -/
theorem foldl_writeGroup_skip : ∀ (ctrls : List (String × List OpInfo)) (st : GenState),
    (∀ g ∈ ctrls, hasFile st (filePathFor g.1) = true) →
    (ctrls.foldl writeGroup st).files = st.files
  | [], _, _ => rfl
  | g0 :: rest, st, h => by
    have h0 := h g0 (List.mem_cons_self _ _)
    have hfiles : (writeGroup st g0).files = st.files := writeGroup_files_of_hasFile st g0 h0
    have hrest : ∀ g ∈ rest, hasFile (writeGroup st g0) (filePathFor g.1) = true := by
      intro g hg
      rw [hasFile_congr _ st _ hfiles]
      exact h g (List.mem_cons_of_mem _ hg)
    rw [List.foldl_cons, foldl_writeGroup_skip rest _ hrest, hfiles]

/-- The files and log a generation step produces depend only on the files
and log it starts from, not on the directory set. -/
theorem writeGroup_congr (st st' : GenState) (g : String × List OpInfo)
    (hf : st.files = st'.files) (hl : st.log = st'.log) :
    (writeGroup st g).files = (writeGroup st' g).files ∧
    (writeGroup st g).log = (writeGroup st' g).log := by
  unfold writeGroup
  rw [hasFile_congr st st' _ hf]
  split <;> exact ⟨by rw [hf], by rw [hl]⟩

/-- The same, through the whole generation loop. -/
theorem foldl_writeGroup_congr : ∀ (ctrls : List (String × List OpInfo))
    (st st' : GenState), st.files = st'.files → st.log = st'.log →
    (ctrls.foldl writeGroup st).files = (ctrls.foldl writeGroup st').files ∧
    (ctrls.foldl writeGroup st).log = (ctrls.foldl writeGroup st').log
  | [], _, _, hf, hl => ⟨hf, hl⟩
  | g :: rest, st, st', hf, hl => by
    obtain ⟨hf1, hl1⟩ := writeGroup_congr st st' g hf hl
    exact foldl_writeGroup_congr rest _ _ hf1 hl1

/-- The directory check touches no files. -/
theorem ensureDir_files (st : GenState) : (ensureDir st).files = st.files := by
  unfold ensureDir
  split <;> rfl

/-- The directory check prints nothing. -/
theorem ensureDir_log (st : GenState) : (ensureDir st).log = st.log := by
  unfold ensureDir
  split <;> rfl

/-- After the directory check the output directory exists. -/
theorem ensureDir_mem (st : GenState) : controllersDir ∈ (ensureDir st).dirs := by
  unfold ensureDir
  split
  · next h => exact h
  · simp

/-- When the output directory already exists the check is a no-op. -/
theorem ensureDir_eq_of_mem (st : GenState) (h : controllersDir ∈ st.dirs) :
    ensureDir st = st := by
  unfold ensureDir
  simp [h]

/-- The files of a run are the files of the generation loop. -/
theorem generate_files (st : GenState) (spec : ApiSpec) :
    (generate st (some spec)).files
      = ((buildControllers spec).foldl writeGroup (ensureDir st)).files := rfl

/-- The directory set of a run is the one the directory check leaves. -/
theorem generate_dirs (st : GenState) (spec : ApiSpec) :
    (generate st (some spec)).dirs = (ensureDir st).dirs :=
  foldl_writeGroup_dirs (buildControllers spec) (ensureDir st)

/-- Skipping a non-qualifying operation is the identity on the catalog. -/
theorem processOperation_not_qualifies (ctrls : List (String × List OpInfo))
    (pathUrl method : String) (op : Operation) (h : qualifies op = false) :
    processOperation ctrls pathUrl method op = ctrls := by
  unfold processOperation
  simp [h]

/-- The path-item loop on a method/operation pair then the rest. -/
theorem processPathItem_cons (ctrls : List (String × List OpInfo)) (pathUrl : String)
    (mo : String × Operation) (rest : List (String × Operation)) :
    processPathItem ctrls pathUrl (mo :: rest)
      = processPathItem (processOperation ctrls pathUrl mo.1 mo.2) pathUrl rest := rfl

/-- Filtering a path item down to its qualifying operations does not change
what the scan builds from it. -/
theorem processPathItem_filter : ∀ (methods : List (String × Operation))
    (ctrls : List (String × List OpInfo)) (pathUrl : String),
    processPathItem ctrls pathUrl (methods.filter (fun mo => qualifies mo.2))
      = processPathItem ctrls pathUrl methods
  | [], _, _ => rfl
  | mo :: rest, ctrls, pathUrl => by
    by_cases hq : qualifies mo.2 = true
    · rw [show (mo :: rest).filter (fun x => qualifies x.2)
            = mo :: rest.filter (fun x => qualifies x.2) by simp [List.filter_cons, hq]]
      rw [processPathItem_cons, processPathItem_cons]
      exact processPathItem_filter rest _ pathUrl
    · have hq' : qualifies mo.2 = false := by simpa using hq
      rw [show (mo :: rest).filter (fun x => qualifies x.2)
            = rest.filter (fun x => qualifies x.2) by simp [List.filter_cons, hq']]
      rw [processPathItem_cons,
        processOperation_not_qualifies ctrls pathUrl mo.1 mo.2 hq']
      exact processPathItem_filter rest ctrls pathUrl

/-- Filtering every path item does not change the whole scan. -/
theorem buildControllers_filter_aux : ∀ (paths : List (String × List (String × Operation)))
    (ctrls : List (String × List OpInfo)),
    (paths.map (fun pm => (pm.1, pm.2.filter (fun mo => qualifies mo.2)))).foldl
        (fun c pm => processPathItem c pm.1 pm.2) ctrls
      = paths.foldl (fun c pm => processPathItem c pm.1 pm.2) ctrls
  | [], _ => rfl
  | pm :: rest, ctrls => by
    simp only [List.map_cons, List.foldl_cons]
    rw [processPathItem_filter pm.2 ctrls pm.1]
    exact buildControllers_filter_aux rest _

/-- The handler-group catalog is built from the qualifying operations only. -/
theorem buildControllers_filterQualifying (spec : ApiSpec) :
    buildControllers (filterQualifying spec) = buildControllers spec := by
  unfold buildControllers filterQualifying
  exact buildControllers_filter_aux spec.paths []

/-- C1: an operation lacking either the `x-eov-operation-handler` or the
`x-eov-operation-id` extension field contributes nothing to a run: erasing
every such operation from the document leaves the whole run — every output
file and every console message — unchanged, so no stub is emitted for it
anywhere and nothing is reported about it. -/
theorem extension_field_gating (st : GenState) (spec : ApiSpec) :
    generate st (some spec) = generate st (some (filterQualifying spec)) := by
  simp only [generate]
  rw [buildControllers_filterQualifying]

/-- C6: when parsing the OpenAPI YAML document fails, the run aborts before
any handler group is processed and the state — files, directories and log —
is exactly the state before the run. -/
theorem parse_failure_writes_nothing (st : GenState) : generate st none = st := rfl

/-- C2: a second run against an unchanged document and unchanged filesystem
is a no-op on disk: every file of the first run is found by the existence
check and skipped, so the second run performs zero new writes and zero
modifications, and the directory set is also unchanged. -/
theorem generator_idempotent (st : GenState) (spec : ApiSpec) :
    (generate (generate st (some spec)) (some spec)).files
        = (generate st (some spec)).files ∧
    (generate (generate st (some spec)) (some spec)).dirs
        = (generate st (some spec)).dirs := by
  constructor
  · rw [generate_files (generate st (some spec)) spec]
    have hall : ∀ g ∈ buildControllers spec,
        hasFile (ensureDir (generate st (some spec))) (filePathFor g.1) = true := by
      intro g hg
      rw [hasFile_congr _ (generate st (some spec)) _ (ensureDir_files _)]
      rw [hasFile_congr _ ((buildControllers spec).foldl writeGroup (ensureDir st)) _
        (generate_files st spec)]
      exact hasFile_foldl_self (buildControllers spec) (ensureDir st) g hg
    rw [foldl_writeGroup_skip (buildControllers spec) _ hall, ensureDir_files]
  · rw [generate_dirs (generate st (some spec)) spec,
      ensureDir_eq_of_mem (generate st (some spec))
        (by rw [generate_dirs st spec]; exact ensureDir_mem st)]

/-- C8: a missing output directory is created before any file generation is
attempted and is never an error: after a run the directory exists, and the
files and console log of a run do not depend on whether the directory was
present initially. -/
theorem missing_output_dir_created (files : List (String × String))
    (dirs1 dirs2 : List String) (log : List String) (spec : ApiSpec) :
    controllersDir ∈ (generate ⟨files, dirs1, log⟩ (some spec)).dirs ∧
    (generate ⟨files, dirs1, log⟩ (some spec)).files
        = (generate ⟨files, dirs2, log⟩ (some spec)).files ∧
    (generate ⟨files, dirs1, log⟩ (some spec)).log
        = (generate ⟨files, dirs2, log⟩ (some spec)).log := by
  have hcongr := foldl_writeGroup_congr (buildControllers spec)
    (ensureDir ⟨files, dirs1, log⟩) (ensureDir ⟨files, dirs2, log⟩)
    (by rw [ensureDir_files, ensureDir_files])
    (by rw [ensureDir_log, ensureDir_log])
  refine ⟨?_, hcongr.1, ?_⟩
  · rw [generate_dirs]
    exact ensureDir_mem _
  · show ((buildControllers spec).foldl writeGroup (ensureDir ⟨files, dirs1, log⟩)).log
        ++ ["🎉 Generation completed!"]
      = ((buildControllers spec).foldl writeGroup (ensureDir ⟨files, dirs2, log⟩)).log
        ++ ["🎉 Generation completed!"]
    rw [hcongr.2]

/-- Left-folding string concatenation from an initial accumulator is the
accumulator followed by the join of the pieces. -/
theorem string_foldl_append : ∀ (l : List String) (init : String),
    l.foldl (fun a b => a ++ b) init = init ++ String.join l
  | [], init => by
    show init = init ++ ""
    rw [String.append_empty]
  | x :: rest, init => by
    have hrec := string_foldl_append rest
    have hjoin : String.join (x :: rest) = x ++ String.join rest := by
      show rest.foldl (fun a b => a ++ b) ("" ++ x) = x ++ String.join rest
      exact hrec ("" ++ x)
    rw [List.foldl_cons, hrec (init ++ x), String.append_assoc, hjoin]

/-- C3 (counterexample): the claim that each stub's parameters are typed
against the operation-specific `ApiRequest`/`ApiResponse` aliases is false:
for the `getUsers` operation the emitted parameter types differ from those
aliases. -/
theorem stub_param_types_counterexample :
    (stubFor ⟨"getUsers", "GET", "/users", "Get all users",
        "Returns a list of all registered users"⟩).params.map StubParam.tsType
      ≠ specAliasParamTypes ⟨"getUsers", "GET", "/users", "Get all users",
        "Returns a list of all registered users"⟩ := by decide

/-- C3 (amended): for every handler group the synthesized file is the fixed
header comment followed by one exported stub per operation of the group, in
order; each stub's three parameters `req`, `res`, `next` are typed with the
generic express `Request`, `Response`, `NextFunction` types (the operation's
schema types are only referenced in a comment inside the body), not with the
operation-specific `ApiRequest`/`ApiResponse` aliases. -/
theorem controller_file_shape (controllerName : String) (ops : List OpInfo) :
    controllerContent controllerName ops
        = fileHeader controllerName ++ String.join (ops.map renderStub) ∧
    ∀ op ∈ ops,
      (stubFor op).params.map StubParam.name = ["req", "res", "next"] ∧
      (stubFor op).params.map StubParam.tsType
        = ["Request", "Response", "NextFunction"] := by
  constructor
  · unfold controllerContent
    rw [show ops.foldl (fun content op => content ++ renderStub op)
            (fileHeader controllerName)
          = (ops.map renderStub).foldl (fun a b => a ++ b) (fileHeader controllerName)
        from (List.foldl_map renderStub _ ops _).symm]
    exact string_foldl_append (ops.map renderStub) (fileHeader controllerName)
  · intro op _
    exact ⟨rfl, rfl⟩

/-- Witness for C3 (amended) at the one-operation `healthController` group. -/
theorem controller_file_shape_witness :
    controllerContent "healthController" [⟨"getHealth", "GET", "/health", "", ""⟩]
        = fileHeader "healthController"
          ++ String.join [renderStub ⟨"getHealth", "GET", "/health", "", ""⟩] ∧
    (stubFor (⟨"getHealth", "GET", "/health", "", ""⟩ : OpInfo)).params.map
        StubParam.name = ["req", "res", "next"] ∧
    (stubFor (⟨"getHealth", "GET", "/health", "", ""⟩ : OpInfo)).params.map
        StubParam.tsType = ["Request", "Response", "NextFunction"] := by
  obtain ⟨h1, h2⟩ :=
    controller_file_shape "healthController" [⟨"getHealth", "GET", "/health", "", ""⟩]
  exact ⟨h1, h2 _ (List.mem_singleton_self _)⟩

/-- C4: the file generated for a handler group holding exactly the
operations a, b, c exports exactly three functions, named by the three
operation ids in order, each with the fixed parameter triple
`(req: Request, res: Response, next: NextFunction)`. -/
theorem per_group_exports_complete (a b c : OpInfo) :
    (fileExports [a, b, c]).length = 3 ∧
    (fileExports [a, b, c]).map Stub.name
        = [a.operationId, b.operationId, c.operationId] ∧
    (fileExports [a, b, c]).map Stub.params
        = [[⟨"req", "Request"⟩, ⟨"res", "Response"⟩, ⟨"next", "NextFunction"⟩],
           [⟨"req", "Request"⟩, ⟨"res", "Response"⟩, ⟨"next", "NextFunction"⟩],
           [⟨"req", "Request"⟩, ⟨"res", "Response"⟩, ⟨"next", "NextFunction"⟩]] :=
  ⟨rfl, rfl, rfl⟩

/-- C5: an operation catalog entry with no declared `parameters.path`
projects to the empty-object shape `Record<string, never>`, and an entry
with no declared response content at a given status code projects to the
`void` marker at that status. -/
theorem fallback_projection_laws (op : OperationSchema) (status : Nat)
    (hp : op.pathParams = none) (hr : responseContent op status = none) :
    PathParams op = TsType.recordStringNever ∧
    ResponseBody op status = TsType.voidT := by
  constructor
  · unfold PathParams
    rw [hp]
  · unfold ResponseBody
    rw [hr]

/-- Witness for C5: an entry with no path parameters and a body-less 204. -/
theorem fallback_projection_laws_witness :
    PathParams ⟨none, none, none, [(204, none)]⟩ = TsType.recordStringNever ∧
    ResponseBody ⟨none, none, none, [(204, none)]⟩ 204 = TsType.voidT :=
  fallback_projection_laws ⟨none, none, none, [(204, none)]⟩ 204 rfl rfl

/-- C9: the extension-field gate tests truthiness, not key presence — an
operation whose handler or id extension field holds the empty string is
skipped by the scan exactly as when the fields are absent, so no catalog
entry (and hence no file entry) is created for it. -/
theorem empty_extension_field_skipped (ctrls : List (String × List OpInfo))
    (pathUrl method : String) (op : Operation)
    (hfalsy : op.xEovOperationHandler = some "" ∨ op.xEovOperationId = some "") :
    processOperation ctrls pathUrl method op = ctrls ∧
    processOperation ctrls pathUrl method
      { op with xEovOperationHandler := none, xEovOperationId := none } = ctrls := by
  constructor
  · rcases hfalsy with h | h <;> simp [processOperation, qualifies, truthyOpt, h]
  · simp [processOperation, qualifies, truthyOpt]

/-- Witness for C9: an operation with an empty handler name and a valid id. -/
theorem empty_extension_field_skipped_witness :
    processOperation [] "/health" "get" ⟨some "", some "getHealth", none, none⟩ = [] ∧
    processOperation [] "/health" "get"
      { (⟨some "", some "getHealth", none, none⟩ : Operation) with
        xEovOperationHandler := none, xEovOperationId := none } = [] :=
  empty_extension_field_skipped [] "/health" "get"
    ⟨some "", some "getHealth", none, none⟩ (Or.inl rfl)

/-- C10: the body projections require the exact `application/json` media
type: a declared request body whose content map lacks that key projects to
`undefined`, the same result as declaring no request body at all, and a
declared response whose content at a status lacks that key projects to
`void`. -/
theorem json_media_type_required (op : OperationSchema)
    (content content2 : List (String × TsType)) (status : Nat)
    (hb : op.requestBodyContent = some content)
    (hj : lookupMedia content "application/json" = none)
    (hc : responseContent op status = some content2)
    (hj2 : lookupMedia content2 "application/json" = none) :
    RequestBody op = TsType.undef ∧
    RequestBody op
        = RequestBody ⟨op.pathParams, op.queryParams, none, op.responses⟩ ∧
    ResponseBody op status = TsType.voidT := by
  refine ⟨?_, ?_, ?_⟩
  · simp [RequestBody, hb, hj]
  · simp [RequestBody, hb, hj]
  · simp [ResponseBody, hc, hj2]

/-- Witness for C10: an operation whose request body and 200 response only
declare a `text/plain` media type. -/
theorem json_media_type_required_witness :
    RequestBody ⟨none, none, some [("text/plain", TsType.named "string")],
        [(200, some [("text/plain", TsType.named "string")])]⟩ = TsType.undef ∧
    RequestBody ⟨none, none, some [("text/plain", TsType.named "string")],
        [(200, some [("text/plain", TsType.named "string")])]⟩
      = RequestBody ⟨none, none, none,
        [(200, some [("text/plain", TsType.named "string")])]⟩ ∧
    ResponseBody ⟨none, none, some [("text/plain", TsType.named "string")],
        [(200, some [("text/plain", TsType.named "string")])]⟩ 200 = TsType.voidT :=
  json_media_type_required
    ⟨none, none, some [("text/plain", TsType.named "string")],
      [(200, some [("text/plain", TsType.named "string")])]⟩
    [("text/plain", TsType.named "string")] [("text/plain", TsType.named "string")]
    200 rfl (by decide) (by decide) (by decide)

/-- A generation step on a fresh target appends exactly its one file. -/
theorem writeGroup_files_of_fresh (st : GenState) (g : String × List OpInfo)
    (h : hasFile st (filePathFor g.1) = false) :
    (writeGroup st g).files
      = st.files ++ [(filePathFor g.1, controllerContent g.1 g.2)] := by
  unfold writeGroup
  simp [h]

/-- C7 (amended): when the second run's document is the first run's plus
one new handler group and that group's output file is not on disk after the
first run, the second run appends exactly that one file — with the content
synthesized for the new group — and leaves every existing file unchanged. -/
theorem monotone_run_adds_new_file (st : GenState) (spec1 spec2 : ApiSpec)
    (newHandler : String) (ops : List OpInfo)
    (hgroups : buildControllers spec2 = buildControllers spec1 ++ [(newHandler, ops)])
    (hfresh :
      hasFile (generate st (some spec1)) (filePathFor newHandler) = false) :
    (generate (generate st (some spec1)) (some spec2)).files
      = (generate st (some spec1)).files
        ++ [(filePathFor newHandler, controllerContent newHandler ops)] := by
  rw [generate_files (generate st (some spec1)) spec2, hgroups, List.foldl_append]
  have hall : ∀ g ∈ buildControllers spec1,
      hasFile (ensureDir (generate st (some spec1))) (filePathFor g.1) = true := by
    intro g hg
    rw [hasFile_congr _ (generate st (some spec1)) _ (ensureDir_files _)]
    rw [hasFile_congr _ ((buildControllers spec1).foldl writeGroup (ensureDir st)) _
      (generate_files st spec1)]
    exact hasFile_foldl_self _ _ g hg
  have hmid : ((buildControllers spec1).foldl writeGroup
        (ensureDir (generate st (some spec1)))).files
      = (generate st (some spec1)).files := by
    rw [foldl_writeGroup_skip _ _ hall, ensureDir_files]
  have hnot : hasFile ((buildControllers spec1).foldl writeGroup
        (ensureDir (generate st (some spec1)))) (filePathFor newHandler) = false := by
    rw [hasFile_congr _ (generate st (some spec1)) _ hmid]
    exact hfresh
  show (writeGroup ((buildControllers spec1).foldl writeGroup
      (ensureDir (generate st (some spec1)))) (newHandler, ops)).files = _
  rw [writeGroup_files_of_fresh _ (newHandler, ops) hnot, hmid]

/-- Witness for C7 (amended): a one-group document gaining a fresh
`healthController` group, run from an empty filesystem. -/
theorem monotone_run_adds_new_file_witness :
    (generate (generate ⟨[], [], []⟩ (some ⟨[("/users",
        [("get", ⟨some "userController", some "getUsers", some "List users", none⟩)])]⟩))
      (some ⟨[("/users",
        [("get", ⟨some "userController", some "getUsers", some "List users", none⟩)]),
        ("/health",
        [("get", ⟨some "healthController", some "getHealth", none, none⟩)])]⟩)).files
      = (generate ⟨[], [], []⟩ (some ⟨[("/users",
        [("get", ⟨some "userController", some "getUsers", some "List users", none⟩)])]⟩)).files
        ++ [(filePathFor "healthController",
             controllerContent "healthController" [⟨"getHealth", "GET", "/health", "", ""⟩])] :=
  monotone_run_adds_new_file ⟨[], [], []⟩
    ⟨[("/users",
      [("get", ⟨some "userController", some "getUsers", some "List users", none⟩)])]⟩
    ⟨[("/users",
      [("get", ⟨some "userController", some "getUsers", some "List users", none⟩)]),
      ("/health", [("get", ⟨some "healthController", some "getHealth", none, none⟩)])]⟩
    "healthController" [⟨"getHealth", "GET", "/health", "", ""⟩]
    (by decide) (by decide)

/-- C7 (counterexample): the claim as stated — second document = first plus
one new handler group, filesystem untouched between runs, hence exactly one
new file — fails when the new group's file already exists on disk before the
first run: here the document gains the `healthController` group, yet the
second run adds no file at all (two files before, two after). -/
theorem monotonicity_counterexample :
    buildControllers ⟨[("/users",
        [("get", ⟨some "userController", some "getUsers", some "List users", none⟩)]),
        ("/health",
        [("get", ⟨some "healthController", some "getHealth", none, none⟩)])]⟩
      = buildControllers ⟨[("/users",
        [("get", ⟨some "userController", some "getUsers", some "List users", none⟩)])]⟩
        ++ [("healthController", [⟨"getHealth", "GET", "/health", "", ""⟩])] ∧
    (generate ⟨[("src/controllers/healthController.ts", "// hand-written")],
        ["./src/controllers"], []⟩
      (some ⟨[("/users",
        [("get", ⟨some "userController", some "getUsers", some "List users", none⟩)])]⟩)).files.length
      = 2 ∧
    (generate (generate ⟨[("src/controllers/healthController.ts", "// hand-written")],
        ["./src/controllers"], []⟩
      (some ⟨[("/users",
        [("get", ⟨some "userController", some "getUsers", some "List users", none⟩)])]⟩))
      (some ⟨[("/users",
        [("get", ⟨some "userController", some "getUsers", some "List users", none⟩)]),
        ("/health",
        [("get", ⟨some "healthController", some "getHealth", none, none⟩)])]⟩)).files.length
      = 2 := by
  refine ⟨by decide, ?_, ?_⟩ <;> decide
